import Mathlib

/-!
Verification of the dual-field date-range input coordinator
(`DateRangeInput` in the source, `src/unnamed/part_000`).

The embedding models calendar dates at day granularity (year, month, day),
which is the granularity at which every operation of the component works:
values enter the state either by parsing text under the default
`"YYYY-MM-DD"` format or as calendar days confirmed/hovered in the overlay,
so no value ever carries a time-of-day component.

A `moment` value in the component's state is modelled by `M`:
`M.nullM` covers both a plain JS `null` stored in the state and the
null-input moment `moment(null)` (the component's `isNull` treats the two
identically, and `isValid`/range checks agree on them as well);
`M.invalidM` is a moment produced from unparseable text; `M.day d` is a
valid moment holding the civil date `d`.
-/

set_option autoImplicit false

namespace DRI

/-- A civil calendar date: year, month (1-12), day of month. -/
structure CDate where
  y : Int
  m : Nat
  d : Nat
deriving DecidableEq, Repr

/-- Strict chronological order on civil dates (lexicographic on y, m, d).
For dates at midnight this coincides with the millisecond order JS uses. -/
def CDate.ltb (a b : CDate) : Bool :=
  decide (a.y < b.y ∨ (a.y = b.y ∧ (a.m < b.m ∨ (a.m = b.m ∧ a.d < b.d))))

/-- Non-strict chronological order on civil dates. -/
def CDate.leb (a b : CDate) : Bool :=
  CDate.ltb a b || a == b

/-- A value of type `moment.Moment` (or JS `null`) as stored in component
state: the null-input moment, an invalid moment from failed parsing, or a
valid moment holding a civil date. -/
inductive M where
  | nullM
  | invalidM
  | day (d : CDate)
deriving DecidableEq, Repr

/-- `value.isValid()`: only a moment holding an actual date is valid. -/
def M.isValidM : M → Bool
  | .day _ => true
  | _ => false

/-- The component's `isNull(value)`:
`value == null || value.parsingFlags().nullInput`. -/
def M.isNullM : M → Bool
  | .nullM => true
  | _ => false

/-- Gregorian leap-year test (as used by moment's date validation). -/
def isLeapYear (y : Int) : Bool :=
  (y % 4 == 0 && y % 100 != 0) || y % 400 == 0

/-- Number of days in a given month of a given year. -/
def daysInMonth (y : Int) (m : Nat) : Nat :=
  if m = 2 then (if isLeapYear y then 29 else 28)
  else if m = 4 ∨ m = 6 ∨ m = 9 ∨ m = 11 then 30
  else 31

/-- `moment(text, "YYYY-MM-DD")` for non-null `text`: parse a ten-character
date string, rejecting malformed shapes and non-existent calendar days. -/
def parseDate (s : String) : M :=
  match s.toList with
  | [y1, y2, y3, y4, h1, mo1, mo2, h2, d1, d2] =>
    if h1 == '-' && h2 == '-' && y1.isDigit && y2.isDigit && y3.isDigit && y4.isDigit
        && mo1.isDigit && mo2.isDigit && d1.isDigit && d2.isDigit then
      let y : Int := Int.ofNat ((y1.toNat - 48) * 1000 + (y2.toNat - 48) * 100
        + (y3.toNat - 48) * 10 + (y4.toNat - 48))
      let mo : Nat := (mo1.toNat - 48) * 10 + (mo2.toNat - 48)
      let da : Nat := (d1.toNat - 48) * 10 + (d2.toNat - 48)
      if 1 ≤ mo ∧ mo ≤ 12 ∧ 1 ≤ da ∧ da ≤ daysInMonth y mo then M.day ⟨y, mo, da⟩
      else M.invalidM
    else M.invalidM
  | _ => M.invalidM

/-- `moment(valueString, format)` where `valueString` may be JS `null`
(a null `valueString` yields the null-input moment). -/
def parseOpt (s : Option String) : M :=
  match s with
  | none => M.nullM
  | some str => parseDate str

/-- Left-pad a natural number to two digits. -/
def pad2 (n : Nat) : String :=
  if n < 10 then "0" ++ toString n else toString n

/-- Left-pad a year to four digits. -/
def pad4 (n : Int) : String :=
  if n < 0 then toString n
  else
    let s := toString n.toNat
    String.mk (List.replicate (4 - s.length) '0') ++ s

/-- Print a civil date under the default `"YYYY-MM-DD"` format. -/
def formatDate (c : CDate) : String :=
  pad4 c.y ++ "-" ++ pad2 c.m ++ "-" ++ pad2 c.d

/-- `value.format(format)`: a valid moment prints its date; moment prints
the literal string `"Invalid date"` for null or invalid moments. -/
def formatMoment : M → String
  | .day c => formatDate c
  | _ => "Invalid date"

/-- Which end of the range a piece of state refers to
(`DateRangeBoundary`). -/
inductive Boundary where
  | START
  | END
deriving DecidableEq, Repr

/-- The opposite boundary. -/
def Boundary.other : Boundary → Boundary
  | .START => .END
  | .END => .START

/-- The props recognized by the coordinator, with the source's defaults.
`value = none` models the `value` prop being `undefined` (uncontrolled);
`value = some r` models a controlled component. The format is fixed to the
default `"YYYY-MM-DD"`. -/
structure Cfg where
  allowSingleDayRange : Bool := false
  closeOnSelection : Bool := false
  openOnFocus : Bool := true
  selectAllOnFocus : Bool := true
  minDate : Option CDate := none
  maxDate : Option CDate := none
  value : Option (Option CDate × Option CDate) := none
  invalidDateMessage : String := "Invalid date"
  invalidEndDateMessage : String := "Invalid end date"
  outOfRangeMessage : String := "Out of range"
deriving DecidableEq, Repr

/-- `IDateRangeInputState`: the component state.  `Option String` fields
model nullable strings (`none` covers JS `null` and `undefined`, which the
component only ever distinguishes via `!= null`-style checks that treat
them alike). -/
structure RState where
  isOpen : Bool
  mostRecentlyFocusedField : Option Boundary
  isStartDateInputFocused : Bool
  startDateHoverValueString : Option String
  startDateValue : M
  startDateValueString : Option String
  isEndDateInputFocused : Bool
  endDateHoverValueString : Option String
  endDateValue : M
  endDateValueString : Option String
  boundaryToModify : Option Boundary
  wasLastFocusChangeDueToHover : Bool
deriving DecidableEq, Repr

/-- The committed moment value of a boundary (the `valueKey` slot). -/
def RState.valueOf (s : RState) : Boundary → M
  | .START => s.startDateValue
  | .END => s.endDateValue

/-- The typed value string of a boundary (the `valueStringKey` slot). -/
def RState.valueStringOf (s : RState) : Boundary → Option String
  | .START => s.startDateValueString
  | .END => s.endDateValueString

/-- The focus flag of a boundary (the `focusStateKey` slot). -/
def RState.focusedOf (s : RState) : Boundary → Bool
  | .START => s.isStartDateInputFocused
  | .END => s.isEndDateInputFocused

/-- The hover-override string of a boundary (`hoverValueStringKey`). -/
def RState.hoverOf (s : RState) : Boundary → Option String
  | .START => s.startDateHoverValueString
  | .END => s.endDateHoverValueString

/-- Write the committed moment value of a boundary. -/
def RState.setValue (s : RState) (b : Boundary) (v : M) : RState :=
  match b with
  | .START => { s with startDateValue := v }
  | .END => { s with endDateValue := v }

/-- Write the typed value string of a boundary. -/
def RState.setValueString (s : RState) (b : Boundary) (v : Option String) : RState :=
  match b with
  | .START => { s with startDateValueString := v }
  | .END => { s with endDateValueString := v }

/-- Write the focus flag of a boundary. -/
def RState.setFocused (s : RState) (b : Boundary) (v : Bool) : RState :=
  match b with
  | .START => { s with isStartDateInputFocused := v }
  | .END => { s with isEndDateInputFocused := v }

/-- Write the hover-override string of a boundary. -/
def RState.setHover (s : RState) (b : Boundary) (v : Option String) : RState :=
  match b with
  | .START => { s with startDateHoverValueString := v }
  | .END => { s with endDateHoverValueString := v }

/-- Modelled from the spec: `fromDateToMoment` of `common/dateUtils` is not
under `src/`; per §4.1 a missing date is the null-input moment and a real
calendar day becomes a valid moment for that day. -/
def fromDateToMoment : Option CDate → M
  | none => M.nullM
  | some d => M.day d

/-- Modelled from the spec: `fromMomentToDate` of `common/dateUtils` is not
under `src/`; a valid moment yields its calendar day (the component only
applies it to values already checked valid). -/
def fromMomentToDate : M → Option CDate
  | .day d => some d
  | _ => none

/-- Modelled from the spec: `areSameDay` of `common/dateUtils` is not under
`src/`; per §4.1 equality of calendar dates ignores time-of-day, and an
invalid or null value is never the same day as anything. -/
def areSameDay (a b : M) : Bool :=
  match a, b with
  | .day x, .day y => x == y
  | _, _ => false

/-- `a.diff(b, "days") === 0`: at day granularity the day difference is zero
exactly for equal days; if either moment is null or invalid the difference
is NaN, which is not `0`. -/
def momentDayDiffZero (a b : M) : Bool :=
  match a, b with
  | .day x, .day y => x == y
  | _, _ => false

/-- `a.isBefore(b)`: comparisons against null or invalid moments are false. -/
def momentIsBefore (a b : M) : Bool :=
  match a, b with
  | .day x, .day y => CDate.ltb x y
  | _, _ => false

/-- JS `<` on two nullable `Date`s: `null` coerces to `+0` milliseconds,
i.e. the epoch day 1970-01-01; two dates compare by their instants. -/
def jsDateLt (a b : Option CDate) : Bool :=
  CDate.ltb (a.getD ⟨1970, 1, 1⟩) (b.getD ⟨1970, 1, 1⟩)

/-- `dateIsInRange`: if either bound is missing the check passes
unconditionally; otherwise `value.isBetween(minDate, maxDate, "day", "[]")`,
which is false for null or invalid moments and day-inclusive otherwise. -/
def dateIsInRange (cfg : Cfg) (v : M) : Bool :=
  match cfg.minDate, cfg.maxDate with
  | some mn, some mx =>
    match v with
    | .day d => CDate.leb mn d && CDate.leb d mx
    | _ => false
  | _, _ => true

/-- `isDateValidAndInRange`:
`value != null && value.isValid() && this.dateIsInRange(value)`. -/
def isDateValidAndInRange (cfg : Cfg) (v : M) : Bool :=
  v.isValidM && dateIsInRange cfg v

/-- `getDateStringForDisplay`: empty for a null value, the invalid message
for unparseable values, the out-of-range message outside the bounds, and
the formatted date otherwise. -/
def getDateStringForDisplay (cfg : Cfg) (v : M) : String :=
  if v.isNullM then ""
  else if !v.isValidM then cfg.invalidDateMessage
  else if !dateIsInRange cfg v then cfg.outOfRangeMessage
  else formatMoment v

/-- Callbacks the component can emit to its host.  The source marks every
`onError`/`onChange` call site inside the input handlers as a pending TODO,
so no handler ever constructs one of these. -/
inductive Emit where
  | errorEmit (payload : M)
  | changeEmit (payload : Option CDate × Option CDate)
deriving DecidableEq, Repr

/-- `handleGenericInputChange`: runs on every keystroke in a field. -/
def handleGenericInputChange (cfg : Cfg) (b : Boundary) (valueString : String)
    (s : RState) : RState × List Emit :=
  let value := parseDate valueString
  if valueString.length = 0 then
    -- show an empty field for clarity; the committed slot becomes JS null
    (((s.setValue b M.nullM).setValueString b (some "")).setHover b none, [])
  else if value.isValidM && dateIsInRange cfg value then
    if cfg.value = none then
      -- source: onChange call left as a TODO, nothing is emitted
      ((s.setValue b value).setValueString b (some valueString), [])
    else
      (s.setValueString b (some valueString), [])
  else
    ((s.setValue b value).setValueString b (some valueString), [])

/-- `handleGenericInputBlur`: runs when a field loses focus.  Note the
source compares the typed string against the display string of
`this.state.startDateValue` for both boundaries. -/
def handleGenericInputBlur (cfg : Cfg) (b : Boundary) (s : RState) :
    RState × List Emit :=
  let valueString := s.valueStringOf b
  let value := parseOpt valueString
  let isValueInvalid := !value.isValidM
  let isValueOutOfRange := !dateIsInRange cfg value
  let isValueStringOutOfSync :=
    !(valueString == some (getDateStringForDisplay cfg s.startDateValue))
  let isInputEmpty :=
    match valueString with
    | none => true
    | some str => str.length = 0
  let didInputChangeToInvalidState :=
    !isInputEmpty && isValueStringOutOfSync && (isValueInvalid || isValueOutOfRange)
  if isInputEmpty then
    (((s.setFocused b false).setValue b M.nullM).setValueString b none, [])
  else if didInputChangeToInvalidState then
    -- source: the onError/onChange calls in this branch are left as TODOs,
    -- so nothing is emitted on any of its paths
    (if cfg.value = none then
      ((s.setFocused b false).setValue b value).setValueString b none
    else
      s.setFocused b false, [])
  else
    (s.setFocused b false, [])

/-- `handleGenericInputFocus`: runs when a field gains focus. -/
def handleGenericInputFocus (cfg : Cfg) (b : Boundary) (s : RState) : RState :=
  let value := s.valueOf b
  let valueString := if value.isNullM then "" else formatMoment value
  let sanitizedBoundaryToModify :=
    if s.wasLastFocusChangeDueToHover then s.boundaryToModify else some b
  let s1 := (s.setFocused b true).setValueString b (some valueString)
  { s1 with
    boundaryToModify := sanitizedBoundaryToModify
    mostRecentlyFocusedField := some b
    wasLastFocusChangeDueToHover := false
    isOpen := if cfg.openOnFocus then true else s1.isOpen }

/-- `handleHoverChange`: a `none` payload clears the hover overrides; a
hovered range computes preview strings for both fields and, when exactly one
boundary is selected, requests DOM focus on one input (the `.focus()` call
on a ref, returned here as the second component and fed back to the
component as a separate focus event). -/
def handleHoverChange (cfg : Cfg)
    (hoveredRange : Option (Option CDate × Option CDate)) (s : RState) :
    RState × Option Boundary :=
  match hoveredRange with
  | none =>
    ({ s with startDateHoverValueString := none, endDateHoverValueString := none },
     none)
  | some (hs, he) =>
    let hoveredStart := fromDateToMoment hs
    let hoveredEnd := fromDateToMoment he
    let hoveredStartString := getDateStringForDisplay cfg hoveredStart
    let hoveredEndString := getDateStringForDisplay cfg hoveredEnd
    let isStartNull := s.startDateValue.isNullM
    let isEndNull := s.endDateValue.isNullM
    let isExactlyOneBoundarySelected :=
      (!isStartNull && isEndNull) || (isStartNull && !isEndNull)
    let focusRequest :=
      if isExactlyOneBoundarySelected then
        if isEndNull then
          if momentDayDiffZero hoveredStart s.startDateValue then
            some Boundary.END
          else
            some Boundary.START
        else
          if momentDayDiffZero hoveredEnd s.endDateValue then
            some Boundary.START
          else
            some Boundary.END
      else none
    ({ s with
        startDateHoverValueString := some hoveredStartString
        endDateHoverValueString := some hoveredEndString
        wasLastFocusChangeDueToHover := true },
     focusRequest)

/-- `handleDayMouseEnter`: when neither input is focused, re-focus the most
recently focused field. -/
def handleDayMouseEnter (s : RState) : RState :=
  let isNeitherInputFocused :=
    !s.isStartDateInputFocused && !s.isEndDateInputFocused
  if isNeitherInputFocused && s.mostRecentlyFocusedField == some Boundary.START then
    { s with isStartDateInputFocused := true }
  else if isNeitherInputFocused && s.mostRecentlyFocusedField == some Boundary.END then
    { s with isEndDateInputFocused := true }
  else s

/-- `handleIconClick`: when closed, open the popover (the paired ref
`.focus()`/`.blur()` calls are DOM actions fed back as separate events). -/
def handleIconClick (s : RState) : RState :=
  if s.isOpen then s else { s with isOpen := true }

/-- `handleClosePopover`. -/
def handleClosePopover (s : RState) : RState :=
  { s with isOpen := false }

/-- `handleGenericInputKeyDown`: Tab from the start field or Shift+Tab from
the end field clears the hover-driven-focus marker. -/
def handleGenericInputKeyDown (s : RState) (isTabPressed isShiftPressed : Bool) :
    RState :=
  let willMoveFocusFromStartToEndField := s.isStartDateInputFocused && isTabPressed
  let willMoveFocusFromEndToStartField :=
    s.isEndDateInputFocused && isTabPressed && isShiftPressed
  if willMoveFocusFromStartToEndField || willMoveFocusFromEndToStartField then
    { s with wasLastFocusChangeDueToHover := false }
  else s

/-- `handleDateRangeChange`: a confirmed calendar selection.  The hover
string locals of the source are declared and conditionally assigned but end
up in the state merge in every branch, either as an explicit `null` or as
`undefined`, so both hover overrides are cleared in all branches. -/
def handleDateRangeChange (cfg : Cfg) (dateRange : Option CDate × Option CDate)
    (s : RState) : RState :=
  let startDate := dateRange.1
  let endDate := dateRange.2
  let startDateValue := fromDateToMoment startDate
  let endDateValue := fromDateToMoment endDate
  let startDateValueString :=
    match startDate with
    | some _ => some (formatMoment startDateValue)
    | none => some ""
  let endDateValueString :=
    match endDate with
    | some _ => some (formatMoment endDateValue)
    | none => some ""
  let focusAndOpen : Bool × Bool × Bool :=
    if startDate = none then
      (true, false, true)
    else if endDate = none then
      (false, true, true)
    else if cfg.closeOnSelection then
      (false, false, false)
    else if s.mostRecentlyFocusedField == some Boundary.START then
      (true, false, true)
    else
      (false, true, true)
  { s with
    wasLastFocusChangeDueToHover := false
    startDateHoverValueString := none
    endDateHoverValueString := none
    startDateValue := startDateValue
    startDateValueString := startDateValueString
    endDateValue := endDateValue
    endDateValueString := endDateValueString
    isStartDateInputFocused := focusAndOpen.1
    isEndDateInputFocused := focusAndOpen.2.1
    isOpen := focusAndOpen.2.2 }

/-- The local `startDateValue`/`endDateValue` of `render`: while a field is
focused its value is re-parsed from the typed string, otherwise the
committed state value is used. -/
def localValue (s : RState) (b : Boundary) : M :=
  if s.focusedOf b then parseOpt (s.valueStringOf b) else s.valueOf b

/-- The `startDateString` local of `render` (a nullable string): hover
override first, then the typed string while focused, then the display form
of the committed value. -/
def startDateStringR (cfg : Cfg) (s : RState) : Option String :=
  match s.startDateHoverValueString with
  | some h => some h
  | none =>
    if s.isStartDateInputFocused then s.startDateValueString
    else some (getDateStringForDisplay cfg s.startDateValue)

/-- The `endDateString` local of `render`: hover override first, then the
typed string while focused; otherwise, when the end value sorts before the
start value, the invalid-end message, else the display form of the
committed end value. -/
def endDateStringR (cfg : Cfg) (s : RState) : Option String :=
  match s.endDateHoverValueString with
  | some h => some h
  | none =>
    if s.isEndDateInputFocused then s.endDateValueString
    else if momentIsBefore (localValue s .END) (localValue s .START) then
      some cfg.invalidEndDateMessage
    else some (getDateStringForDisplay cfg s.endDateValue)

/-- `isStartDateInputInErrorState` as computed in `render`. -/
def isStartDateInputInErrorState (cfg : Cfg) (s : RState) : Bool :=
  let startDateValue := localValue s .START
  let startDateString := startDateStringR cfg s
  !(isDateValidAndInRange cfg startDateValue
    || startDateValue.isNullM
    || startDateString == some ""
    || startDateString == s.startDateHoverValueString)

/-- `isEndDateInputInErrorState` as computed in `render`: the generic error
test, or an end value strictly before the start value on distinct days. -/
def isEndDateInputInErrorState (cfg : Cfg) (s : RState) : Bool :=
  let startDateValue := localValue s .START
  let endDateValue := localValue s .END
  let endDateString := endDateStringR cfg s
  let isEndDaySameAsStartDay := areSameDay startDateValue endDateValue
  (!(isDateValidAndInRange cfg endDateValue
      || endDateValue.isNullM
      || endDateString == some ""
      || endDateString == s.endDateHoverValueString))
  || (momentIsBefore endDateValue startDateValue && !isEndDaySameAsStartDay)

/-- The strings actually rendered into the two inputs:
`value={startDateString || ""}` and `value={endDateString || ""}`. -/
def displayedStrings (cfg : Cfg) (s : RState) : String × String :=
  ((startDateStringR cfg s).getD "", (endDateStringR cfg s).getD "")

/-- `getCurrentDateRange`: the resolved range handed to the calendar
overlay; a committed value that is not valid-and-in-range is presented as
unset, and when the end sorts before the start the end is presented as
unset. -/
def getCurrentDateRange (cfg : Cfg) (s : RState) : Option CDate × Option CDate :=
  let startDate :=
    if isDateValidAndInRange cfg s.startDateValue then
      fromMomentToDate s.startDateValue
    else none
  let endDate :=
    if isDateValidAndInRange cfg s.endDateValue then
      fromMomentToDate s.endDateValue
    else none
  if jsDateLt endDate startDate then (startDate, none) else (startDate, endDate)

/-- The constructor: seed the committed values from the controlled `value`
prop when present boundary-wise, else from `defaultValue`, else null. -/
def initialState (cfg : Cfg)
    (defaultValue : Option (Option CDate × Option CDate)) : RState :=
  let defaults :=
    match defaultValue with
    | some (a, b) => (fromDateToMoment a, fromDateToMoment b)
    | none => (M.nullM, M.nullM)
  let startDateValue :=
    match cfg.value with
    | some (some sd, _) => M.day sd
    | _ => defaults.1
  let endDateValue :=
    match cfg.value with
    | some (_, some ed) => M.day ed
    | _ => defaults.2
  { isOpen := false
    mostRecentlyFocusedField := none
    isStartDateInputFocused := false
    startDateHoverValueString := none
    startDateValue := startDateValue
    startDateValueString := none
    isEndDateInputFocused := false
    endDateHoverValueString := none
    endDateValue := endDateValue
    endDateValueString := none
    boundaryToModify := none
    wasLastFocusChangeDueToHover := false }

/-- One external event delivered to the component. -/
inductive Ev where
  | focusEv (b : Boundary)
  | blurEv (b : Boundary)
  | changeEv (b : Boundary) (text : String)
  | keyDownEv (isTabPressed isShiftPressed : Bool)
  | hoverEv (r : Option (Option CDate × Option CDate))
  | dayMouseEnterEv
  | selectionEv (r : Option CDate × Option CDate)
  | iconClickEv
  | closePopoverEv
deriving DecidableEq, Repr

/-- The state transition performed by the handler of each event. -/
def step (cfg : Cfg) (s : RState) : Ev → RState
  | .focusEv b => handleGenericInputFocus cfg b s
  | .blurEv b => (handleGenericInputBlur cfg b s).1
  | .changeEv b text => (handleGenericInputChange cfg b text s).1
  | .keyDownEv tab shift => handleGenericInputKeyDown s tab shift
  | .hoverEv r => (handleHoverChange cfg r s).1
  | .dayMouseEnterEv => handleDayMouseEnter s
  | .selectionEv r => handleDateRangeChange cfg r s
  | .iconClickEv => handleIconClick s
  | .closePopoverEv => handleClosePopover s

/-- At most one of the two focus flags is set. -/
def atMostOneFocused (s : RState) : Bool :=
  !(s.isStartDateInputFocused && s.isEndDateInputFocused)

/-- The host (DOM) focus discipline: a focus event for one field is only
delivered while the other field is unfocused, because the browser blurs the
previously focused element before focusing a new one.  All other events are
unconstrained. -/
def hostAdmissible (s : RState) : Ev → Bool
  | .focusEv .START => !s.isEndDateInputFocused
  | .focusEv .END => !s.isStartDateInputFocused
  | _ => true

/-- Does an optional hovered day fall on the same calendar day as a
committed value? (False when the hovered side is absent or the committed
value holds no day.) -/
def sameCalendarDay (o : Option CDate) (v : M) : Bool :=
  match o, v with
  | some d, .day d2 => d == d2
  | _, _ => false

/-- The focus-shift rule for hover events as the spec words it: only when
exactly one boundary holds a committed value and the other is unset, focus
moves to the unset boundary when the hovered range's day on the set
boundary's side equals that boundary's committed date, and to the set
boundary otherwise; with zero or two boundaries set, no focus shift. -/
def hoverFocusSpec (s : RState) (hs he : Option CDate) : Option Boundary :=
  let startSet := !s.startDateValue.isNullM
  let endSet := !s.endDateValue.isNullM
  if startSet && !endSet then
    if sameCalendarDay hs s.startDateValue then some Boundary.END
    else some Boundary.START
  else if endSet && !startSet then
    if sameCalendarDay he s.endDateValue then some Boundary.START
    else some Boundary.END
  else none

/-- The configuration of the spec's running scenario: format
`"YYYY-MM-DD"`, minDate 2020-01-01, maxDate 2020-12-31, uncontrolled,
remaining options at their defaults. -/
def cfg4 : Cfg :=
  { minDate := some ⟨2020, 1, 1⟩, maxDate := some ⟨2020, 12, 31⟩ }

/-- A configuration with no minimum bound and a maximum bound. -/
def cfgNoMin : Cfg :=
  { minDate := none, maxDate := some ⟨2020, 12, 31⟩ }

/-- Scenario trace (claim C4): the empty uncontrolled control. -/
def c4s0 : RState := initialState cfg4 none

/-- After focusing the start field. -/
def c4s1 : RState := step cfg4 c4s0 (.focusEv .START)

/-- The keystroke delivering the full typed start text, with emissions. -/
def c4c2 : RState × List Emit :=
  handleGenericInputChange cfg4 .START ("2020-02-10") c4s1

/-- The start-field blur, with emissions. -/
def c4c3 : RState × List Emit := handleGenericInputBlur cfg4 .START c4c2.1

/-- After focusing the end field. -/
def c4s4 : RState := step cfg4 c4c3.1 (.focusEv .END)

/-- The keystroke delivering the full typed end text, with emissions. -/
def c4c5 : RState × List Emit :=
  handleGenericInputChange cfg4 .END ("2020-02-05") c4s4

/-- The end-field blur, with emissions. -/
def c4c6 : RState × List Emit := handleGenericInputBlur cfg4 .END c4c5.1

/-- Trace reaching the state of claim C2's failing input: an out-of-range
start date 2021-05-05 is typed and committed (it displays as
`"Out of range"`), then the unparseable text `"Out of range"` is typed into
the end field, which is still focused. -/
def c2state : RState :=
  let s1 := step cfg4 (initialState cfg4 none) (.focusEv .START)
  let s2 := step cfg4 s1 (.changeEv .START ("2021-05-05"))
  let s3 := step cfg4 s2 (.blurEv .START)
  let s4 := step cfg4 s3 (.focusEv .END)
  step cfg4 s4 (.changeEv .END ("Out of range"))

/-- Trace reaching the state of claim C3's failing input: the unparseable
text `"garbage"` has been typed into the focused start field of the empty
uncontrolled control. -/
def c3state : RState :=
  let s1 := step cfg4 (initialState cfg4 none) (.focusEv .START)
  step cfg4 s1 (.changeEv .START ("garbage"))

/-- A blurred state with committed start 2020-02-10 and committed end
2020-02-05 (both in range, end strictly before start). -/
def c10wState : RState :=
  { initialState cfg4 none with
    startDateValue := M.day ⟨2020, 2, 10⟩
    endDateValue := M.day ⟨2020, 2, 5⟩ }

/-- A state whose most recently focused field is the end field. -/
def c8wState : RState :=
  { initialState cfg4 none with mostRecentlyFocusedField := some Boundary.END }

/-- A blurred state with committed start 2020-03-01 and no committed end. -/
def c9wState : RState :=
  { initialState cfg4 none with startDateValue := M.day ⟨2020, 3, 1⟩ }

/-- C6 counterexample: with `minDate` omitted and `maxDate = 2020-12-31`
supplied, the bounds check accepts 2021-01-01 even though it exceeds
`maxDate`, refuting "returns true iff date <= maxDate" at this input. -/
theorem c6_counterexample :
    cfgNoMin.minDate = none
    ∧ cfgNoMin.maxDate = some ⟨2020, 12, 31⟩
    ∧ dateIsInRange cfgNoMin (M.day ⟨2021, 1, 1⟩) = true
    ∧ CDate.leb ⟨2021, 1, 1⟩ ⟨2020, 12, 31⟩ = false := by
  decide

/-- C6 (amended): the bounds check is inclusive at both ends when both
bounds are supplied; when either bound is omitted it returns true for every
value, so a single supplied bound is not enforced. -/
theorem c6_amended : ∀ cfg : Cfg,
    ((cfg.minDate = none ∨ cfg.maxDate = none) →
      ∀ v : M, dateIsInRange cfg v = true)
    ∧ (∀ mn mx : CDate, cfg.minDate = some mn → cfg.maxDate = some mx →
        ∀ d : CDate,
          (dateIsInRange cfg (M.day d) = true ↔
            (CDate.leb mn d = true ∧ CDate.leb d mx = true))) := by
  intro cfg
  constructor
  · intro h v
    rcases h with h | h <;>
      cases hm : cfg.minDate <;> cases hx : cfg.maxDate <;>
      simp_all [dateIsInRange]
  · intro mn mx hmn hmx d
    simp [dateIsInRange, hmn, hmx]

/-- C6 witness: both parts of the amended claim at concrete inputs. -/
theorem c6_amended_witness :
    dateIsInRange cfgNoMin (M.day ⟨2021, 1, 1⟩) = true
    ∧ (dateIsInRange cfg4 (M.day ⟨2020, 6, 15⟩) = true ↔
        (CDate.leb ⟨2020, 1, 1⟩ ⟨2020, 6, 15⟩ = true
          ∧ CDate.leb ⟨2020, 6, 15⟩ ⟨2020, 12, 31⟩ = true)) :=
  ⟨(c6_amended cfgNoMin).1 (Or.inl rfl) _,
   (c6_amended cfg4).2 ⟨2020, 1, 1⟩ ⟨2020, 12, 31⟩ rfl rfl ⟨2020, 6, 15⟩⟩

/-- C10: when both committed values are valid and in range but the end date
sorts strictly before the start date, the range resolved for the calendar
overlay is `(start, null)`. -/
theorem c10_theorem : ∀ (cfg : Cfg) (s : RState) (ds de : CDate),
    s.startDateValue = M.day ds → s.endDateValue = M.day de →
    dateIsInRange cfg (M.day ds) = true → dateIsInRange cfg (M.day de) = true →
    CDate.ltb de ds = true →
    getCurrentDateRange cfg s = (some ds, none) := by
  intro cfg s ds de hs he hrs hre hlt
  simp [getCurrentDateRange, hs, he, isDateValidAndInRange, M.isValidM, hrs, hre,
    fromMomentToDate, jsDateLt, Option.getD, hlt]

/-- C10 witness: the resolution at a concrete out-of-order state. -/
theorem c10_witness :
    getCurrentDateRange cfg4 c10wState = (some ⟨2020, 2, 10⟩, none) :=
  c10_theorem cfg4 c10wState ⟨2020, 2, 10⟩ ⟨2020, 2, 5⟩ rfl rfl
    (by decide) (by decide) (by decide)

/-- C4: in the spec's scenario (format `"YYYY-MM-DD"`, bounds 2020-01-01 to
2020-12-31, empty uncontrolled control), typing `"2020-02-10"` into the
start field and blurring commits start 2020-02-10 with no error flag; then
typing `"2020-02-05"` into the end field and blurring leaves the end field
flagged in error because the end date is valid and in range but strictly
precedes the start date on a distinct day, and no `onChange` is emitted by
any step of the trace. -/
theorem c4_theorem :
    c4c3.1.startDateValue = M.day ⟨2020, 2, 10⟩
    ∧ isStartDateInputInErrorState cfg4 c4c3.1 = false
    ∧ c4c6.1.endDateValue = M.day ⟨2020, 2, 5⟩
    ∧ isEndDateInputInErrorState cfg4 c4c6.1 = true
    ∧ isDateValidAndInRange cfg4 c4c6.1.endDateValue = true
    ∧ momentIsBefore c4c6.1.endDateValue c4c6.1.startDateValue = true
    ∧ areSameDay c4c6.1.startDateValue c4c6.1.endDateValue = false
    ∧ c4c2.2 = [] ∧ c4c3.2 = [] ∧ c4c5.2 = [] ∧ c4c6.2 = [] := by
  decide

/-- C1 counterexample: a keystroke delivering `"2020-02-10"` to the start
field of the empty uncontrolled control overwrites the committed start
value, refuting "the committed value is unchanged by the keystroke
handler". -/
theorem c1_counterexample :
    (handleGenericInputChange cfg4 .START ("2020-02-10")
        (initialState cfg4 none)).1.startDateValue
      ≠ (initialState cfg4 none).startDateValue := by
  decide

/-- C1 (amended): the keystroke handler does overwrite the focused field's
committed value — to the null value on empty text, and to the parse result
on non-empty text, except that a controlled control with valid in-range
text keeps its committed value; the other field's committed value is never
touched. -/
theorem c1_amended : ∀ (cfg : Cfg) (b : Boundary) (text : String) (s : RState),
    (handleGenericInputChange cfg b text s).1.valueOf b =
      (if text.length = 0 then M.nullM
       else if (parseDate text).isValidM && dateIsInRange cfg (parseDate text) then
         (if cfg.value = none then parseDate text else s.valueOf b)
       else parseDate text)
    ∧ (handleGenericInputChange cfg b text s).1.valueOf b.other
        = s.valueOf b.other := by
  intro cfg b text s
  cases b <;>
    simp only [handleGenericInputChange, Boundary.other] <;>
    split_ifs <;>
    simp_all [RState.setValue, RState.setValueString, RState.setHover, RState.valueOf]

/-- C2 evidence: blurring the end field in `c2state` — where the typed end
text `"Out of range"` is unparseable and differs from the end field's own
committed display string, but happens to equal the start field's committed
display string — takes the plain-unfocus path: nothing but the focus flag
changes and nothing is emitted, although the claim requires the sticky
error commit and an error signal here. -/
theorem c2_theorem :
    handleGenericInputBlur cfg4 .END c2state = (c2state.setFocused .END false, [])
    ∧ (parseOpt c2state.endDateValueString).isValidM = false
    ∧ c2state.endDateValueString
        ≠ some (getDateStringForDisplay cfg4 c2state.endDateValue) := by
  decide

/-- C3 evidence: blurring the start field in `c3state` — where the typed
text `"garbage"` is unparseable — takes the error-commit path (the invalid
value is committed and the typed string cleared), yet the handler emits no
callback at all: the `onError` call is an unimplemented TODO in the
source. -/
theorem c3_theorem :
    (handleGenericInputBlur cfg4 .START c3state).1.startDateValue = M.invalidM
    ∧ (handleGenericInputBlur cfg4 .START c3state).1.startDateValueString = none
    ∧ (handleGenericInputBlur cfg4 .START c3state).2 = [] := by
  decide

/-- C5 counterexample: from the initial state, a focus event on the start
field followed by a focus event on the end field (with no blur in between)
leaves both focus flags true — the coordinator does not clear the other
field's flag on focus. -/
theorem c5_counterexample :
    (step cfg4 (step cfg4 (initialState cfg4 none) (.focusEv .START))
        (.focusEv .END)).isStartDateInputFocused = true
    ∧ (step cfg4 (step cfg4 (initialState cfg4 none) (.focusEv .START))
        (.focusEv .END)).isEndDateInputFocused = true := by
  decide

/-- C5 (amended): at most one field is focused after any event, provided
each focus event for a field is delivered only while the other field is
unfocused (the browser's blur-before-focus discipline); the coordinator
itself does not enforce the exclusion on focus events. -/
theorem c5_amended : ∀ (cfg : Cfg) (s : RState) (e : Ev),
    atMostOneFocused s = true → hostAdmissible s e = true →
    atMostOneFocused (step cfg s e) = true := by
  intro cfg s e h ha
  cases e with
  | focusEv b =>
    cases b <;>
      simp_all [step, hostAdmissible, handleGenericInputFocus, RState.setFocused,
        RState.setValueString, atMostOneFocused]
  | blurEv b =>
    cases b <;>
      simp_all [step, handleGenericInputBlur, RState.setFocused, RState.setValue,
        RState.setValueString, RState.valueStringOf, atMostOneFocused] <;>
      split_ifs <;> simp_all
  | changeEv b text =>
    cases b <;>
      simp_all [step, handleGenericInputChange, RState.setValue,
        RState.setValueString, RState.setHover, atMostOneFocused] <;>
      split_ifs <;> simp_all
  | keyDownEv tab shift =>
    simp_all [step, handleGenericInputKeyDown, atMostOneFocused]
    split_ifs <;> simp_all
  | hoverEv r =>
    cases r with
    | none => simp_all [step, handleHoverChange, atMostOneFocused]
    | some p =>
      obtain ⟨a, b2⟩ := p
      simp_all [step, handleHoverChange, atMostOneFocused]
  | dayMouseEnterEv =>
    simp_all [step, handleDayMouseEnter, atMostOneFocused]
    split_ifs <;> simp_all
  | selectionEv r =>
    obtain ⟨sd, ed⟩ := r
    cases sd <;> cases ed <;>
      simp_all [step, handleDateRangeChange, atMostOneFocused]
    split_ifs <;> simp_all
  | iconClickEv =>
    simp_all [step, handleIconClick, atMostOneFocused]
    split_ifs <;> simp_all
  | closePopoverEv =>
    simp_all [step, handleClosePopover, atMostOneFocused]

/-- C5 witness: the amended preservation applied at a concrete admissible
focus event from the initial state. -/
theorem c5_amended_witness :
    atMostOneFocused (initialState cfg4 none) = true
    ∧ hostAdmissible (initialState cfg4 none) (.focusEv .START) = true
    ∧ atMostOneFocused (step cfg4 (initialState cfg4 none) (.focusEv .START))
        = true :=
  ⟨by decide, by decide, c5_amended cfg4 _ _ (by decide) (by decide)⟩

/-- C7: the focus request produced by a hover event agrees with the spec's
rule — only with exactly one boundary set does focus shift, toward the
unset boundary when the hovered range's day on the set boundary's side is
that boundary's committed day and toward the set boundary otherwise — and a
clear-hover event requests no focus shift. -/
theorem c7_theorem : ∀ (cfg : Cfg) (s : RState) (hs he : Option CDate),
    (handleHoverChange cfg (some (hs, he)) s).2 = hoverFocusSpec s hs he
    ∧ (handleHoverChange cfg none s).2 = none := by
  intro cfg s hs he
  refine ⟨?_, rfl⟩
  cases hsv : s.startDateValue <;> cases hev : s.endDateValue <;>
    cases hs <;> cases he <;>
    simp_all [handleHoverChange, hoverFocusSpec, M.isNullM, fromDateToMoment,
      momentDayDiffZero, sameCalendarDay]

/-- C8: a confirmed calendar selection commits both boundary values from
the selection; focus goes to the start field when the selected start is
unset, else to the end field when the selected end is unset; with both set
the overlay closes (and neither field is focused) under `closeOnSelection`,
and otherwise the overlay stays open with focus on the boundary most
recently focused before the selection. -/
theorem c8_theorem : ∀ (cfg : Cfg) (s : RState) (r : Option CDate × Option CDate),
    (handleDateRangeChange cfg r s).startDateValue = fromDateToMoment r.1
    ∧ (handleDateRangeChange cfg r s).endDateValue = fromDateToMoment r.2
    ∧ (r.1 = none →
        (handleDateRangeChange cfg r s).isStartDateInputFocused = true
        ∧ (handleDateRangeChange cfg r s).isEndDateInputFocused = false)
    ∧ (r.1 ≠ none → r.2 = none →
        (handleDateRangeChange cfg r s).isStartDateInputFocused = false
        ∧ (handleDateRangeChange cfg r s).isEndDateInputFocused = true)
    ∧ (r.1 ≠ none → r.2 ≠ none → cfg.closeOnSelection = true →
        (handleDateRangeChange cfg r s).isOpen = false
        ∧ (handleDateRangeChange cfg r s).isStartDateInputFocused = false
        ∧ (handleDateRangeChange cfg r s).isEndDateInputFocused = false)
    ∧ (r.1 ≠ none → r.2 ≠ none → cfg.closeOnSelection = false →
        (handleDateRangeChange cfg r s).isOpen = true
        ∧ (s.mostRecentlyFocusedField = some .START →
            (handleDateRangeChange cfg r s).isStartDateInputFocused = true
            ∧ (handleDateRangeChange cfg r s).isEndDateInputFocused = false)
        ∧ (s.mostRecentlyFocusedField = some .END →
            (handleDateRangeChange cfg r s).isStartDateInputFocused = false
            ∧ (handleDateRangeChange cfg r s).isEndDateInputFocused = true)) := by
  intro cfg s r
  obtain ⟨sd, ed⟩ := r
  cases sd <;> cases ed <;>
    cases hcs : cfg.closeOnSelection <;>
    cases hmr : s.mostRecentlyFocusedField <;>
    simp_all [handleDateRangeChange, fromDateToMoment]
  all_goals
    first
    | rfl
    | (rename_i b; cases b <;> simp_all)

/-- C8 witness: a concrete both-set selection with `closeOnSelection` off
and the end field most recently focused. -/
theorem c8_witness :
    (handleDateRangeChange cfg4 (some ⟨2020, 3, 1⟩, some ⟨2020, 3, 5⟩)
        c8wState).startDateValue = M.day ⟨2020, 3, 1⟩
    ∧ (handleDateRangeChange cfg4 (some ⟨2020, 3, 1⟩, some ⟨2020, 3, 5⟩)
        c8wState).isEndDateInputFocused = true := by
  have h := c8_theorem cfg4 c8wState (some ⟨2020, 3, 1⟩, some ⟨2020, 3, 5⟩)
  exact ⟨h.1,
    ((h.2.2.2.2.2 (by decide) (by decide) (by decide)).2.2 (by decide)).2⟩

/-- C9: a hover-preview event changes nothing in the state except the two
hover-override strings and the hover-attribution marker — in particular
both committed values, both typed strings, both focus flags, the open flag,
the boundary marker and the recent-focus marker are untouched — and, from a
state with no active hover override, clearing the hover right after a hover
event restores both displayed strings exactly. -/
theorem c9_theorem : ∀ (cfg : Cfg) (s : RState) (hr : Option CDate × Option CDate),
    ((handleHoverChange cfg (some hr) s).1.startDateValue = s.startDateValue
    ∧ (handleHoverChange cfg (some hr) s).1.endDateValue = s.endDateValue
    ∧ (handleHoverChange cfg (some hr) s).1.startDateValueString
        = s.startDateValueString
    ∧ (handleHoverChange cfg (some hr) s).1.endDateValueString
        = s.endDateValueString
    ∧ (handleHoverChange cfg (some hr) s).1.isStartDateInputFocused
        = s.isStartDateInputFocused
    ∧ (handleHoverChange cfg (some hr) s).1.isEndDateInputFocused
        = s.isEndDateInputFocused
    ∧ (handleHoverChange cfg (some hr) s).1.isOpen = s.isOpen
    ∧ (handleHoverChange cfg (some hr) s).1.boundaryToModify = s.boundaryToModify
    ∧ (handleHoverChange cfg (some hr) s).1.mostRecentlyFocusedField
        = s.mostRecentlyFocusedField)
    ∧ (s.startDateHoverValueString = none → s.endDateHoverValueString = none →
        displayedStrings cfg
            ((handleHoverChange cfg none
              ((handleHoverChange cfg (some hr) s).1)).1)
          = displayedStrings cfg s) := by
  intro cfg s hr
  obtain ⟨hs, he⟩ := hr
  constructor
  · exact ⟨rfl, rfl, rfl, rfl, rfl, rfl, rfl, rfl, rfl⟩
  · intro h1 h2
    cases s
    simp only at h1 h2
    subst h1
    subst h2
    rfl

/-- C9 witness: hovering 2020-03-01 to 2020-03-05 over a state with only a
committed start date, then clearing the hover. -/
theorem c9_witness :
    (handleHoverChange cfg4 (some (some ⟨2020, 3, 1⟩, some ⟨2020, 3, 5⟩))
        c9wState).1.startDateValue = c9wState.startDateValue
    ∧ displayedStrings cfg4
        ((handleHoverChange cfg4 none
          ((handleHoverChange cfg4 (some (some ⟨2020, 3, 1⟩, some ⟨2020, 3, 5⟩))
            c9wState).1)).1)
        = displayedStrings cfg4 c9wState := by
  have h := c9_theorem cfg4 c9wState (some ⟨2020, 3, 1⟩, some ⟨2020, 3, 5⟩)
  exact ⟨h.1.1, h.2 rfl rfl⟩

end DRI
